import Mathlib

/-!
Shallow embedding of the TrackMe tracker core
(src/backend/timetracking/models.py, views.py, serializers.py).

Clock instants are modelled as integers counting microseconds, the exact
resolution of Python `datetime`; a difference of instants is therefore an
exact integer number of microseconds.  Python's
`int(timedelta.total_seconds())` truncates the second count toward zero,
which on a microsecond difference is truncating division by 10^6
(`pySeconds` below); the mathematical floor of the same second count is
`floorSeconds`.  `Option` models a nullable field.  The mongoengine
document fields `user`, `created_at` and `updated_at` carry no tracker
logic and are omitted from the state.
-/

deriving instance DecidableEq for Except

namespace TrackMe

/-- One second, expressed in microsecond ticks. -/
def second : ℤ := 1000000

/-- The number of whole seconds Python computes from a difference of
`us` microseconds: `int(timedelta.total_seconds())`, truncation toward
zero. -/
def pySeconds (us : ℤ) : ℤ := us.tdiv 1000000

/-- The floor of the exact second count of a difference of `us`
microseconds, the rounding the specification describes. -/
def floorSeconds (us : ℤ) : ℤ := ⌊(us : ℚ) / 1000000⌋

/-- The floor of the second count is floor division by 10^6. -/
theorem floorSeconds_eq_fdiv (us : ℤ) : floorSeconds us = us.fdiv 1000000 := by
  have h : ((1000000 : ℚ)) = ((1000000 : ℕ) : ℚ) := by norm_num
  rw [floorSeconds, h, Rat.floor_intCast_div_natCast, Int.fdiv_eq_ediv _ (by norm_num)]
  norm_num

/-- On a non-negative difference, Python truncation and the floor agree. -/
theorem pySeconds_eq_floorSeconds {us : ℤ} (h : 0 ≤ us) :
    pySeconds us = floorSeconds us := by
  rw [pySeconds, floorSeconds_eq_fdiv, Int.tdiv_eq_ediv h (by norm_num),
    Int.fdiv_eq_ediv _ (by norm_num)]

/-- Python `str.strip()`: drop whitespace from both ends of the
string. -/
def pystrip (s : String) : String :=
  ⟨(((s.data.dropWhile Char.isWhitespace).reverse).dropWhile
      Char.isWhitespace).reverse⟩

/-- The persisted per-user tracker document
(`TrackerSession` in models.py): the four fields the state machine reads
and writes. -/
structure TrackerSession where
  started_at : Option ℤ
  paused_at : Option ℤ
  accumulated_seconds : ℤ
  is_running : Bool
deriving DecidableEq

namespace TrackerSession

/-- Embedding of `TrackerSession.get_current_elapsed_seconds` (models.py
lines 130-155): start from `accumulated_seconds`; if running and
`started_at` is set, add the current segment, measured to `paused_at`
when that is set and to `now` otherwise, truncated to whole seconds by
Python `int`; finally clamp with `max(0, total)`. -/
def get_current_elapsed_seconds (s : TrackerSession) (now : ℤ) : ℤ :=
  let total := s.accumulated_seconds
  let total :=
    match s.is_running, s.started_at, s.paused_at with
    | true, some st, some p => total + pySeconds (p - st)
    | true, some st, none => total + pySeconds (now - st)
    | _, _, _ => total
  max 0 total

/-- Embedding of `TrackerSession.pause` (models.py lines 157-172): only
acts when `is_running` and `paused_at` is not set; records `paused_at =
now`, stops the clock, and if `started_at` is set banks
`int((now - started_at).total_seconds())` into `accumulated_seconds`. -/
def pause (s : TrackerSession) (now : ℤ) : TrackerSession :=
  if s.is_running ∧ s.paused_at = none then
    let s' : TrackerSession := { s with paused_at := some now, is_running := false }
    match s.started_at with
    | some st =>
        { s' with accumulated_seconds := s'.accumulated_seconds + pySeconds (now - st) }
    | none => s'
  else s

/-- Embedding of `TrackerSession.resume` (models.py lines 174-180): when
not running, restart the segment clock at `now`, clear `paused_at`, keep
`accumulated_seconds`. -/
def resume (s : TrackerSession) (now : ℤ) : TrackerSession :=
  if ¬ s.is_running then
    { s with started_at := some now, paused_at := none, is_running := true }
  else s

/-- Embedding of `TrackerSession.reset` (models.py lines 182-187):
unconditionally overwrite all four fields, ignoring the prior state. -/
def reset (_s : TrackerSession) (now : ℤ) : TrackerSession :=
  { started_at := some now, paused_at := none, accumulated_seconds := 0,
    is_running := false }

end TrackerSession

/-- The tracker lazily created by `TrackerView.get_or_create_tracker`
(views.py lines 245-258) on the first tracker request of a user:
`started_at = utcnow()`, `is_running = False`, mongoengine defaults
`paused_at = None` and `accumulated_seconds = 0`. -/
def get_or_create_tracker (now : ℤ) : TrackerSession :=
  { started_at := some now, paused_at := none, accumulated_seconds := 0,
    is_running := false }

/-- The four valid tracker actions accepted by `TrackerView.post`. -/
inductive TrackerAction
  | start
  | pause
  | resume
  | reset
deriving DecidableEq

/-- Embedding of the action dispatch in `TrackerView.post` (views.py
lines 283-312) for a valid action: the guarded state change together
with the human-readable message of each branch. -/
def applyAction (s : TrackerSession) (now : ℤ) : TrackerAction → String × TrackerSession
  | .start =>
      if ¬ s.is_running then
        ("Tracker started",
          { s with started_at := some now, paused_at := none, is_running := true })
      else ("Tracker already running", s)
  | .pause =>
      if s.is_running then ("Tracker paused", s.pause now)
      else ("Tracker already paused", s)
  | .resume =>
      if ¬ s.is_running then ("Tracker resumed", s.resume now)
      else ("Tracker already running", s)
  | .reset => ("Tracker reset", s.reset now)

/-- Action-string parsing of `TrackerView.post`: any string other than
the four action names falls through to the error branch. -/
def parseAction (a : String) : Option TrackerAction :=
  if a = "start" then some .start
  else if a = "pause" then some .pause
  else if a = "resume" then some .resume
  else if a = "reset" then some .reset
  else none

/-- Embedding of `TrackerView.post` (views.py lines 274-328): a valid
action always returns HTTP 200 with a message and the updated tracker;
an unknown action returns the HTTP 400 error body. -/
def trackerPost (s : TrackerSession) (now : ℤ) (a : String) :
    Except String (String × TrackerSession) :=
  match parseAction a with
  | some act => .ok (applyAction s now act)
  | none => .error "Invalid action. Use: start, pause, resume, reset"

/-- The persisted time-entry document (`TimeEntry` in models.py),
restricted to the fields with logic; `user` and `created_at` are
omitted, `metadata` is the opaque pass-through key/value map. -/
structure TimeEntry where
  description : String
  duration_seconds : ℤ
  start_time : Option ℤ
  end_time : ℤ
  booked_from_tracker : Bool
  metadata : List (String × String)
deriving DecidableEq

/-- Validation performed when a `TimeEntry` document is saved: the
`TimeEntry.clean` checks of models.py lines 69-96 (end time at most 5
minutes ahead of `now`, start strictly before end when both set,
description not whitespace-only), followed by the mongoengine field
constraints (`min_length=3`/`max_length=1000` on description,
`min_value=1` on `duration_seconds`).  Returns the saved entry or the
validation message. -/
def TimeEntry.save (e : TimeEntry) (now : ℤ) : Except String TimeEntry :=
  if e.end_time > now + 300 * second then
    .error "End time cannot be more than 5 minutes in the future"
  else if (match e.start_time with
           | some st => decide (st ≥ e.end_time)
           | none => false) then
    .error "Start time must be before end time"
  else if e.description ≠ "" ∧ pystrip e.description = "" then
    .error "Description cannot be empty or only whitespace"
  else if e.description.length < 3 ∨ 1000 < e.description.length then
    .error "String value did not match validation rules"
  else if e.duration_seconds < 1 then
    .error "Integer value is too small"
  else .ok e

/-- The outcomes of `TimeEntryViewSet._book_from_tracker` and of entry
creation: the spec's `NoActiveSession` (the `TrackerSession.DoesNotExist`
branch), `NothingToBook` (the `duration_seconds <= 0` branch), and a
validation failure while persisting the entry. -/
inductive BookErr
  | noActiveSession
  | nothingToBook
  | validationError (msg : String)
deriving DecidableEq

/-- The validated request data reaching `perform_create`: the serializer
fields of `TimeEntryCreateSerializer` after `run_validation`, where
`duration_seconds` is `none` when the object-level `validate` popped
it. -/
structure ValidatedEntryData where
  description : String
  duration_seconds : Option ℤ
  start_time : Option ℤ
  end_time : ℤ
  booked_from_tracker : Bool
  metadata : List (String × String)
deriving DecidableEq

/-- Embedding of `TimeEntryViewSet._book_from_tracker` (views.py lines
202-228).  The first component is the request outcome (the created entry
or the raised error), the second is the tracker row as persisted after
the call: `None` if no session existed, the reset session if the entry
was created, and the untouched input session on every failure after
lookup.  The entry is built by `serializer.save(user=...,
duration_seconds=duration, start_time=tracker.started_at,
booked_from_tracker=True)`, so `description`, `end_time` and `metadata`
come from the validated caller data, and the tracker reset happens only
after the entry save succeeded. -/
def book_from_tracker (tracker : Option TrackerSession) (v : ValidatedEntryData)
    (now : ℤ) : Except BookErr TimeEntry × Option TrackerSession :=
  match tracker with
  | none => (.error .noActiveSession, none)
  | some t =>
      let duration_seconds := t.get_current_elapsed_seconds now
      if duration_seconds ≤ 0 then (.error .nothingToBook, some t)
      else
        let entry : TimeEntry :=
          { description := v.description, duration_seconds := duration_seconds,
            start_time := t.started_at, end_time := v.end_time,
            booked_from_tracker := true, metadata := v.metadata }
        match entry.save now with
        | .ok e => (.ok e, some (t.reset now))
        | .error m => (.error (.validationError m), some t)

/-- The raw request body for creating a time entry, before serializer
validation: every writable serializer field, optional when the client
may omit it. -/
structure CreateInput where
  description : String
  duration_seconds : Option ℤ
  start_time : Option ℤ
  end_time : Option ℤ
  booked_from_tracker : Bool
  metadata : List (String × String)
deriving DecidableEq

/-- Embedding of `TimeEntryCreateSerializer.run_validation`: the
field-level checks of serializers.py lines 78-133 (`duration_seconds`
and `end_time` are required declared fields, description length bounds
and `validate_description` stripping, `validate_duration_seconds`
positivity, `validate_end_time` future bound) followed by the
object-level `validate` of lines 146-179, which pops `duration_seconds`
for tracker bookings and checks start/end ordering for manual entries. -/
def run_validation (d : CreateInput) (now : ℤ) : Except String ValidatedEntryData :=
  match d.duration_seconds, d.end_time with
  | none, _ => .error "duration_seconds: This field is required."
  | _, none => .error "end_time: This field is required."
  | some dur, some et =>
      if d.description.length < 3 ∨ 1000 < d.description.length then
        .error "description: Ensure this field has the allowed length."
      else if pystrip d.description = "" then
        .error "Description cannot be empty."
      else if (pystrip d.description).length < 3 then
        .error "Description must be at least 3 characters long."
      else if dur < 1 then
        .error "Duration must be greater than 0 seconds."
      else if et > now + 300 * second then
        .error "End time cannot be more than 5 minutes in the future."
      else if d.booked_from_tracker then
        .ok { description := pystrip d.description, duration_seconds := none,
              start_time := d.start_time, end_time := et,
              booked_from_tracker := true, metadata := d.metadata }
      else
        match d.start_time with
        | some st =>
            if st ≥ et then .error "Start time must be before end time."
            else
              .ok { description := pystrip d.description, duration_seconds := some dur,
                    start_time := d.start_time, end_time := et,
                    booked_from_tracker := false, metadata := d.metadata }
        | none =>
            .ok { description := pystrip d.description, duration_seconds := some dur,
                  start_time := none, end_time := et,
                  booked_from_tracker := false, metadata := d.metadata }

/-- Embedding of `TimeEntryViewSet.perform_create` (views.py lines
191-200): validated data with `booked_from_tracker` goes through
`_book_from_tracker`; otherwise the entry is saved directly from the
validated fields and the tracker row is untouched. -/
def perform_create (tracker : Option TrackerSession) (v : ValidatedEntryData)
    (now : ℤ) : Except BookErr TimeEntry × Option TrackerSession :=
  if v.booked_from_tracker then book_from_tracker tracker v now
  else
    let entry : TimeEntry :=
      { description := v.description, duration_seconds := v.duration_seconds.getD 0,
        start_time := v.start_time, end_time := v.end_time,
        booked_from_tracker := v.booked_from_tracker, metadata := v.metadata }
    match entry.save now with
    | .ok e => (.ok e, tracker)
    | .error m => (.error (.validationError m), tracker)

/-- The whole create request: serializer validation, then
`perform_create`; a serializer failure is a 400 response that touches
nothing. -/
def create_flow (tracker : Option TrackerSession) (d : CreateInput)
    (now : ℤ) : Except BookErr TimeEntry × Option TrackerSession :=
  match run_validation d now with
  | .error m => (.error (.validationError m), tracker)
  | .ok v => perform_create tracker v now

/-- The abstract phase of the specification's state machine: Idle covers
NeverStarted and the state after a reset, the other two are the spec's
Running and Paused. -/
inductive Phase
  | idle
  | running
  | paused
deriving DecidableEq

/-- The phase reached from phase `p` when the view handles an action on
concrete state `s`: a guarded transition moves the phase, a no-op branch
keeps it. -/
def applyPhase (s : TrackerSession) (p : Phase) : TrackerAction → Phase
  | .start => if s.is_running then p else .running
  | .pause => if s.is_running then .paused else p
  | .resume => if s.is_running then p else .running
  | .reset => .idle

/-- The tracker states reachable from the lazily created initial state
by the view-level transitions and successful bookings, each paired with
the abstract phase the run assigns to it. -/
inductive Reach : TrackerSession → Phase → Prop where
  | init (now : ℤ) : Reach (get_or_create_tracker now) .idle
  | step (s : TrackerSession) (p : Phase) (act : TrackerAction) (now : ℤ) :
      Reach s p → Reach (applyAction s now act).2 (applyPhase s p act)
  | book (s : TrackerSession) (p : Phase) (v : ValidatedEntryData) (now : ℤ)
      (e : TimeEntry) (t' : TrackerSession) :
      Reach s p → book_from_tracker (some s) v now = (.ok e, some t') →
      Reach t' .idle

/-- One concurrent request in the racing read-modify-write model: in the
source, a handler loads the tracker document, mutates the loaded copy in
memory, and `save()` writes the whole document back, so a request is a
read event followed by a write event computed from the read value. -/
inductive RaceEv
  | readA
  | writeA
  | readB
  | writeB
deriving DecidableEq

/-- Execution state of two racing requests over the single persisted
tracker row: the stored document and the in-memory copy each request has
loaded, if it has read already. -/
structure RaceState where
  store : TrackerSession
  regA : Option TrackerSession
  regB : Option TrackerSession
deriving DecidableEq

/-- One event of the race: a read loads the store into the request's
memory, a write stores the request's transition applied to what it read
(last write wins, as a whole-document `save()` does). -/
def raceStep (fA fB : TrackerSession → TrackerSession) (st : RaceState) :
    RaceEv → RaceState
  | .readA => { st with regA := some st.store }
  | .writeA =>
      match st.regA with
      | some v => { st with store := fA v }
      | none => st
  | .readB => { st with regB := some st.store }
  | .writeB =>
      match st.regB with
      | some v => { st with store := fB v }
      | none => st

/-- The stored tracker after running a schedule of read/write events of
two racing requests `fA` and `fB` against initial row `s0`. -/
def raceRun (fA fB : TrackerSession → TrackerSession) (s0 : TrackerSession)
    (evs : List RaceEv) : TrackerSession :=
  (evs.foldl (raceStep fA fB) { store := s0, regA := none, regB := none }).store

/-- A pause whose guard fails changes nothing. -/
theorem pause_noop (s : TrackerSession) (now : ℤ)
    (h : ¬ (s.is_running ∧ s.paused_at = none)) : s.pause now = s := by
  unfold TrackerSession.pause
  rw [if_neg h]

/-- A pause whose guard holds stops the clock. -/
theorem pause_fired_not_running (s : TrackerSession) (now : ℤ)
    (h : s.is_running ∧ s.paused_at = none) : (s.pause now).is_running = false := by
  unfold TrackerSession.pause
  rw [if_pos h]
  cases hst : s.started_at <;> simp [hst]

/-- A freshly reset session reports zero elapsed seconds at any clock
instant. -/
theorem reset_elapsed_zero (s : TrackerSession) (now q : ℤ) :
    (s.reset now).get_current_elapsed_seconds q = 0 := by
  simp [TrackerSession.reset, TrackerSession.get_current_elapsed_seconds]

/-- Whatever happens inside `_book_from_tracker` on an existing session,
the outcome is one of exactly three shapes: a created entry with a reset
tracker, a `NothingToBook` failure, or an entry-validation failure, the
latter two leaving the tracker untouched. -/
theorem book_from_tracker_cases (t : TrackerSession) (v : ValidatedEntryData)
    (now : ℤ) :
    (∃ e, book_from_tracker (some t) v now = (.ok e, some (t.reset now))) ∨
    book_from_tracker (some t) v now = (.error .nothingToBook, some t) ∨
    (∃ m, book_from_tracker (some t) v now = (.error (.validationError m), some t)) := by
  simp only [book_from_tracker]
  split
  · right; left; rfl
  · split
    · left; exact ⟨_, rfl⟩
    · right; right; exact ⟨_, rfl⟩

/-- When `_book_from_tracker` creates an entry, the entry is exactly the
record the code builds — duration from the tracker, `start_time` from
the tracker, `end_time` from the caller — it passed the save-time
validation, and the persisted tracker is the reset one. -/
theorem book_ok_inv (t : TrackerSession) (v : ValidatedEntryData) (now : ℤ)
    (e : TimeEntry) (x : Option TrackerSession)
    (h : book_from_tracker (some t) v now = (.ok e, x)) :
    e = { description := v.description,
          duration_seconds := t.get_current_elapsed_seconds now,
          start_time := t.started_at, end_time := v.end_time,
          booked_from_tracker := true, metadata := v.metadata } ∧
    x = some (t.reset now) ∧
    e.end_time ≤ now + 300 * second ∧
    0 < t.get_current_elapsed_seconds now := by
  simp only [book_from_tracker] at h
  split at h
  · exact absurd (congrArg Prod.fst h) (by simp)
  · next hd =>
    split at h
    · next e' hs =>
      obtain ⟨he, hx⟩ := Prod.mk.injEq .. ▸ h
      unfold TimeEntry.save at hs
      split at hs
      · exact absurd hs (by simp)
      · split at hs
        · exact absurd hs (by simp)
        · split at hs
          · exact absurd hs (by simp)
          · split at hs
            · exact absurd hs (by simp)
            · split at hs
              · exact absurd hs (by simp)
              · next hend _ _ _ _ =>
                cases he
                cases hs
                refine ⟨rfl, hx.symm, by simpa using le_of_not_lt hend, by omega⟩
    · exact absurd (congrArg Prod.fst h) (by simp)

/-- A successful `run_validation` keeps the caller's
`booked_from_tracker` flag and, for a tracker booking, has popped the
caller's `duration_seconds`. -/
theorem run_validation_ok_inv (d : CreateInput) (now : ℤ) (v : ValidatedEntryData)
    (h : run_validation d now = .ok v) :
    v.booked_from_tracker = d.booked_from_tracker ∧
    (d.booked_from_tracker = true → v.duration_seconds = none) := by
  simp only [run_validation] at h
  repeat' split at h
  all_goals try cases h
  all_goals simp_all

/-- C1 counterexample.  The claim quantifies over every session with
`is_running = true` and `started_at` set, and asserts the banked delta
is the floor of the elapsed seconds.  First input: a session that is
running but already has `paused_at` set — `pause` requires `not
self.paused_at`, so it is a no-op and `is_running` stays `true`.  Second
input: a running session whose `started_at` lies half a second after
`now` — the code banks `int(-0.5) = 0`, not `floor(-0.5) = -1`. -/
theorem c1_pause_counterexample :
    (TrackerSession.pause ⟨some 0, some 0, 0, true⟩ (10 * second)).is_running = true ∧
    (TrackerSession.pause ⟨some 500000, none, 0, true⟩ 0).accumulated_seconds
      ≠ 0 + floorSeconds (0 - 500000) := by
  refine ⟨by decide, ?_⟩
  rw [floorSeconds_eq_fdiv]
  decide

/-- C1 (amended): for every session with `is_running = true`,
`started_at` set and `paused_at` unset, `pause` at `now` clears
`is_running`, sets `paused_at = now`, and adds the truncation toward
zero of the elapsed seconds to `accumulated_seconds`; the truncation
equals the floor whenever `now` is not before `started_at`. -/
theorem c1_pause_spec (s : TrackerSession) (st now : ℤ)
    (h1 : s.is_running = true) (h2 : s.started_at = some st)
    (h3 : s.paused_at = none) :
    s.pause now =
      { started_at := some st, paused_at := some now,
        accumulated_seconds := s.accumulated_seconds + pySeconds (now - st),
        is_running := false } ∧
    (st ≤ now → pySeconds (now - st) = floorSeconds (now - st)) := by
  constructor
  · obtain ⟨sa, pa, acc, run⟩ := s
    simp only at h1 h2 h3
    subst h1; subst h2; subst h3
    simp [TrackerSession.pause]
  · intro hle
    exact pySeconds_eq_floorSeconds (by omega)

/-- C1 witness: scenario B — start at T0 = 0, pause at T0 + 1500 s with
no prior accumulation banks exactly 1500 seconds and stops the clock. -/
theorem c1_pause_spec_witness :
    (TrackerSession.pause ⟨some 0, none, 0, true⟩ (1500 * second)).accumulated_seconds
        = 1500 ∧
    (TrackerSession.pause ⟨some 0, none, 0, true⟩ (1500 * second)).is_running = false := by
  have h := c1_pause_spec ⟨some 0, none, 0, true⟩ 0 (1500 * second) rfl rfl rfl
  rw [h.1]
  exact ⟨by decide, rfl⟩

/-- C2: booking is atomic from the caller's perspective — when
`_book_from_tracker` returns a created entry the persisted tracker is
the reset one, whose elapsed seconds are 0 at every instant and which is
not running; when the entry save fails validation the persisted tracker
is exactly the input session. -/
theorem c2_book_atomic (t : TrackerSession) (v : ValidatedEntryData) (now : ℤ) :
    (∀ e : TimeEntry, (book_from_tracker (some t) v now).1 = .ok e →
        (book_from_tracker (some t) v now).2 = some (t.reset now) ∧
        (∀ q : ℤ, (t.reset now).get_current_elapsed_seconds q = 0) ∧
        (t.reset now).is_running = false) ∧
    (∀ m : String,
        (book_from_tracker (some t) v now).1 = .error (.validationError m) →
        (book_from_tracker (some t) v now).2 = some t) := by
  rcases book_from_tracker_cases t v now with ⟨e', he⟩ | he | ⟨m', he⟩ <;> rw [he]
  · exact ⟨fun e _ => ⟨rfl, fun q => reset_elapsed_zero t now q, rfl⟩,
      fun m hm => by simp at hm⟩
  · exact ⟨fun e ha => by simp at ha, fun m hm => by simp at hm⟩
  · exact ⟨fun e ha => by simp at ha, fun m _ => rfl⟩

/-- C2 witness: a concrete successful booking resets the tracker, and a
concrete booking whose entry fails save-time validation (caller
`end_time` not after the tracker's `started_at`) leaves the tracker
untouched. -/
theorem c2_book_atomic_witness :
    (book_from_tracker (some ⟨some 0, none, 0, true⟩)
        ⟨"work log", none, none, 50 * second, true, []⟩ (100 * second)).2
      = some (TrackerSession.reset ⟨some 0, none, 0, true⟩ (100 * second)) ∧
    (book_from_tracker (some ⟨some (60 * second), none, 120, true⟩)
        ⟨"work log", none, none, 50 * second, true, []⟩ (100 * second)).2
      = some ⟨some (60 * second), none, 120, true⟩ := by
  constructor
  · exact ((c2_book_atomic ⟨some 0, none, 0, true⟩
      ⟨"work log", none, none, 50 * second, true, []⟩ (100 * second)).1
      ⟨"work log", 100, some 0, 50 * second, true, []⟩ (by decide)).1
  · exact (c2_book_atomic ⟨some (60 * second), none, 120, true⟩
      ⟨"work log", none, none, 50 * second, true, []⟩ (100 * second)).2
      "Start time must be before end time" (by decide)

/-- C3 counterexample: a successful booking at clock instant
`now = 100 s` whose caller supplied `end_time = 50 s`.  The created
entry's `end_time` is the caller's value, not `now()`: the code passes
only `duration_seconds`, `start_time` and `booked_from_tracker` to
`serializer.save`, so `end_time` comes from the request body. -/
theorem c3_book_counterexample :
    (book_from_tracker (some ⟨some 0, none, 0, true⟩)
        ⟨"work log", none, none, 50 * second, true, []⟩ (100 * second)).1
      = .ok ⟨"work log", 100, some 0, 50 * second, true, []⟩ ∧
    (50 * second : ℤ) ≠ 100 * second := by
  exact ⟨by decide, by decide⟩

/-- C3 (amended): every entry created by `_book_from_tracker` has
`booked_from_tracker = true`, `duration_seconds` equal to the tracker's
elapsed seconds at booking time, `start_time` equal to the tracker's
`started_at`, and `end_time` equal to the caller-supplied `end_time`,
which validation bounds by `now()` plus five minutes. -/
theorem c3_book_fields (t : TrackerSession) (v : ValidatedEntryData) (now : ℤ)
    (e : TimeEntry) (x : Option TrackerSession)
    (h : book_from_tracker (some t) v now = (.ok e, x)) :
    e.booked_from_tracker = true ∧
    e.duration_seconds = t.get_current_elapsed_seconds now ∧
    e.start_time = t.started_at ∧
    e.end_time = v.end_time ∧
    e.end_time ≤ now + 300 * second := by
  obtain ⟨he, -, hend, -⟩ := book_ok_inv t v now e x h
  subst he
  exact ⟨rfl, rfl, rfl, rfl, hend⟩

/-- C3 witness: the amended field equalities at a concrete successful
booking. -/
theorem c3_book_fields_witness :
    (⟨"work log", 100, some 0, 50 * second, true, []⟩ : TimeEntry).booked_from_tracker
        = true ∧
    (⟨"work log", 100, some 0, 50 * second, true, []⟩ : TimeEntry).duration_seconds
        = TrackerSession.get_current_elapsed_seconds ⟨some 0, none, 0, true⟩ (100 * second) := by
  have h := c3_book_fields ⟨some 0, none, 0, true⟩
    ⟨"work log", none, none, 50 * second, true, []⟩ (100 * second)
    ⟨"work log", 100, some 0, 50 * second, true, []⟩
    (some (TrackerSession.reset ⟨some 0, none, 0, true⟩ (100 * second))) (by decide)
  exact ⟨h.1, h.2.1⟩

/-- C4: booking with no tracker row fails with `NoActiveSession`, and
booking a session whose elapsed seconds are not positive fails with
`NothingToBook`; in both cases the outcome carries no created entry and
the stored state is untouched. -/
theorem c4_book_failures (v : ValidatedEntryData) (t : TrackerSession) (now : ℤ)
    (h : t.get_current_elapsed_seconds now ≤ 0) :
    book_from_tracker none v now = (.error .noActiveSession, none) ∧
    book_from_tracker (some t) v now = (.error .nothingToBook, some t) := by
  refine ⟨rfl, ?_⟩
  simp only [book_from_tracker]
  rw [if_pos h]

/-- C4 witness: scenario D — a freshly created tracker has zero elapsed
seconds, so booking it fails with `NothingToBook`, and booking with no
session fails with `NoActiveSession`. -/
theorem c4_book_failures_witness :
    book_from_tracker none ⟨"work log", none, none, 50 * second, true, []⟩
        (50 * second) = (.error .noActiveSession, none) ∧
    book_from_tracker (some (get_or_create_tracker 0))
        ⟨"work log", none, none, 50 * second, true, []⟩ (50 * second)
      = (.error .nothingToBook, some (get_or_create_tracker 0)) :=
  c4_book_failures ⟨"work log", none, none, 50 * second, true, []⟩
    (get_or_create_tracker 0) (50 * second) (by decide)

/-- C5: `reset` overwrites the whole state — `started_at = now`,
`paused_at` cleared, `accumulated_seconds = 0`, `is_running = false` —
for every prior state, and the resulting session reports zero elapsed
seconds at every subsequent instant. -/
theorem c5_reset (s : TrackerSession) (now q : ℤ) :
    s.reset now = { started_at := some now, paused_at := none,
                    accumulated_seconds := 0, is_running := false } ∧
    (s.reset now).get_current_elapsed_seconds q = 0 ∧
    (s.reset now).is_running = false :=
  ⟨rfl, reset_elapsed_zero s now q, rfl⟩

/-- C6: the elapsed-seconds query is clamped to be non-negative at every
state and instant; a freshly created (never started) tracker reports 0;
and with `started_at` unset the running segment contributes nothing, so
the result is just the clamped `accumulated_seconds`. -/
theorem c6_elapsed_nonneg (s : TrackerSession) (now now0 : ℤ) :
    0 ≤ s.get_current_elapsed_seconds now ∧
    (get_or_create_tracker now0).get_current_elapsed_seconds now = 0 ∧
    ({ s with started_at := none } : TrackerSession).get_current_elapsed_seconds now
      = max 0 s.accumulated_seconds := by
  refine ⟨?_, by simp [get_or_create_tracker, TrackerSession.get_current_elapsed_seconds], ?_⟩
  · simp only [TrackerSession.get_current_elapsed_seconds]
    exact le_max_left _ _
  · obtain ⟨sa, pa, acc, run⟩ := s
    cases run <;> simp [TrackerSession.get_current_elapsed_seconds]

/-- C7: the no-op transitions of `TrackerView.post` — `pause` while not
running, `start` while running, `resume` while running — answer with
HTTP 200 and an informational message and return the session with every
field unchanged; and a second `pause` in a row is always the identity on
the session, in particular leaving `accumulated_seconds` as the first
`pause` left it. -/
theorem c7_noop_transitions (s : TrackerSession) (now now2 : ℤ) :
    (s.is_running = false →
        trackerPost s now "pause" = .ok ("Tracker already paused", s)) ∧
    (s.is_running = true →
        trackerPost s now "start" = .ok ("Tracker already running", s)) ∧
    (s.is_running = true →
        trackerPost s now "resume" = .ok ("Tracker already running", s)) ∧
    TrackerSession.pause (TrackerSession.pause s now) now2
      = TrackerSession.pause s now := by
  refine ⟨?_, ?_, ?_, ?_⟩
  · intro h
    simp [trackerPost, parseAction, applyAction, h]
  · intro h
    simp [trackerPost, parseAction, applyAction, h]
  · intro h
    simp [trackerPost, parseAction, applyAction, h]
  · by_cases h : s.is_running ∧ s.paused_at = none
    · refine pause_noop _ now2 ?_
      intro hc
      rw [pause_fired_not_running s now h] at hc
      exact absurd hc.1 (by simp)
    · rw [pause_noop s now h, pause_noop s now2 h]

/-- C7 witness: the concrete no-op answers for a paused session receiving
`pause` and a running session receiving `start`. -/
theorem c7_noop_transitions_witness :
    trackerPost ⟨some 0, some (2 * second), 2, false⟩ (3 * second) "pause"
      = .ok ("Tracker already paused", ⟨some 0, some (2 * second), 2, false⟩) ∧
    trackerPost ⟨some 0, none, 0, true⟩ (3 * second) "start"
      = .ok ("Tracker already running", ⟨some 0, none, 0, true⟩) :=
  ⟨(c7_noop_transitions ⟨some 0, some (2 * second), 2, false⟩ (3 * second) 0).1 rfl,
   (c7_noop_transitions ⟨some 0, none, 0, true⟩ (3 * second) 0).2.1 rfl⟩

/-- Strengthened reachability invariant: along every reachable state,
`paused_at` is set exactly in the Paused phase and `is_running` holds
exactly in the Running phase. -/
theorem reach_invariant (s : TrackerSession) (p : Phase) (h : Reach s p) :
    ((s.paused_at ≠ none) ↔ p = .paused) ∧
    (s.is_running = true ↔ p = .running) := by
  induction h with
  | init now => simp [get_or_create_tracker]
  | step s p act now hr ih =>
    obtain ⟨ih1, ih2⟩ := ih
    cases act with
    | start =>
      by_cases hb : s.is_running = true
      · have e1 : (applyAction s now .start).2 = s := by simp [applyAction, hb]
        have e2 : applyPhase s p .start = p := by simp [applyPhase, hb]
        rw [e1, e2]
        exact ⟨ih1, ih2⟩
      · have e1 : (applyAction s now .start).2 =
            { s with started_at := some now, paused_at := none, is_running := true } := by
          simp [applyAction, hb]
        have e2 : applyPhase s p .start = .running := by simp [applyPhase, hb]
        rw [e1, e2]
        simp
    | pause =>
      by_cases hb : s.is_running = true
      · have hpn : s.paused_at = none := by
          by_contra hc
          have hp1 := ih1.mp hc
          have hp2 := ih2.mp hb
          rw [hp1] at hp2
          exact Phase.noConfusion hp2
        have e2 : applyPhase s p .pause = .paused := by simp [applyPhase, hb]
        have e1 : ((applyAction s now .pause).2).paused_at = some now ∧
            ((applyAction s now .pause).2).is_running = false := by
          simp only [applyAction, hb, if_true]
          unfold TrackerSession.pause
          rw [if_pos ⟨hb, hpn⟩]
          cases hst : s.started_at <;> simp [hst]
        rw [e2]
        rw [e1.1, e1.2]
        simp
      · have e1 : (applyAction s now .pause).2 = s := by simp [applyAction, hb]
        have e2 : applyPhase s p .pause = p := by simp [applyPhase, hb]
        rw [e1, e2]
        exact ⟨ih1, ih2⟩
    | resume =>
      by_cases hb : s.is_running = true
      · have e1 : (applyAction s now .resume).2 = s := by simp [applyAction, hb]
        have e2 : applyPhase s p .resume = p := by simp [applyPhase, hb]
        rw [e1, e2]
        exact ⟨ih1, ih2⟩
      · have e1 : (applyAction s now .resume).2 =
            { s with started_at := some now, paused_at := none, is_running := true } := by
          simp [applyAction, TrackerSession.resume, hb]
        have e2 : applyPhase s p .resume = .running := by simp [applyPhase, hb]
        rw [e1, e2]
        simp
    | reset =>
      simp [applyAction, applyPhase, TrackerSession.reset]
  | book s p v now e t' hr heq ih =>
    have hx := (book_ok_inv s v now e (some t') heq).2.1
    injection hx with hx'
    subst hx'
    simp [TrackerSession.reset]

/-- C8: in every session state reachable from the lazily created initial
state by the view transitions and successful bookings, `paused_at` is
set if and only if the run is in the Paused phase — the phase entered by
a successful pause and left by start, resume, reset or booking. -/
theorem c8_paused_at_iff_paused (s : TrackerSession) (p : Phase)
    (h : Reach s p) : (s.paused_at ≠ none) ↔ p = .paused :=
  (reach_invariant s p h).1

/-- C8 witness: the state reached by create, start at 1 s, pause at 5 s
is in the Paused phase and indeed carries a `paused_at`. -/
theorem c8_paused_at_iff_paused_witness :
    ((applyAction (applyAction (get_or_create_tracker 0) second .start).2
        (5 * second) .pause).2.paused_at ≠ none) :=
  (c8_paused_at_iff_paused _ _
      (Reach.step _ _ .pause (5 * second)
        (Reach.step _ _ .start second (Reach.init 0)))).mpr
    (by decide)

/-- C9: the handlers do plain unserialized read-modify-write cycles.
With the tracker running since 0 and two concurrent requests — A pausing
at 100 s, B resetting at 200 s — the interleaving where both handlers
load the row before either saves and A saves last leaves a paused
session with 100 banked seconds, a final state that matches neither
serial order (both serial orders end in the reset state), so the claimed
per-owner serialization does not hold of the code. -/
theorem c9_lost_update :
    raceRun (fun s => (applyAction s (100 * second) .pause).2)
        (fun s => (applyAction s (200 * second) .reset).2)
        ⟨some 0, none, 0, true⟩ [.readA, .readB, .writeB, .writeA]
      = ⟨some 0, some (100 * second), 100, false⟩ ∧
    raceRun (fun s => (applyAction s (100 * second) .pause).2)
        (fun s => (applyAction s (200 * second) .reset).2)
        ⟨some 0, none, 0, true⟩ [.readA, .writeA, .readB, .writeB]
      = ⟨some (200 * second), none, 0, false⟩ ∧
    raceRun (fun s => (applyAction s (100 * second) .pause).2)
        (fun s => (applyAction s (200 * second) .reset).2)
        ⟨some 0, none, 0, true⟩ [.readB, .writeB, .readA, .writeA]
      = ⟨some (200 * second), none, 0, false⟩ ∧
    (⟨some 0, some (100 * second), 100, false⟩ : TrackerSession)
      ≠ ⟨some (200 * second), none, 0, false⟩ := by
  refine ⟨by decide, by decide, by decide, by decide⟩

/-- C10: the serializer's object-level `validate` removes a
caller-supplied `duration_seconds` from a tracker-booking request, and
every entry created through the booked path carries the tracker's
elapsed seconds at booking time as its duration, never the caller's
number. -/
theorem c10_booked_duration_ignored (t : TrackerSession) (d : CreateInput)
    (now : ℤ) :
    (∀ v, run_validation d now = .ok v → d.booked_from_tracker = true →
        v.duration_seconds = none) ∧
    (∀ e x, create_flow (some t) d now = (.ok e, x) →
        d.booked_from_tracker = true →
        e.duration_seconds = t.get_current_elapsed_seconds now) := by
  constructor
  · intro v hv hb
    exact (run_validation_ok_inv d now v hv).2 hb
  · intro e x hc hb
    unfold create_flow at hc
    split at hc
    · exact absurd (congrArg Prod.fst hc) (by simp)
    · next v hv =>
      have hbv : v.booked_from_tracker = true :=
        (run_validation_ok_inv d now v hv).1.trans hb
      rw [perform_create, if_pos hbv] at hc
      exact (book_ok_inv t v now e x hc).1 ▸ rfl

/-- C10 witness: a booking request carrying `duration_seconds = 42` still
produces an entry whose duration is the tracker's 100 elapsed seconds. -/
theorem c10_booked_duration_ignored_witness :
    (⟨"work log", 100, some 0, 50 * second, true, []⟩ : TimeEntry).duration_seconds
      = TrackerSession.get_current_elapsed_seconds ⟨some 0, none, 0, true⟩
          (100 * second) :=
  (c10_booked_duration_ignored ⟨some 0, none, 0, true⟩
      ⟨"work log", some 42, none, some (50 * second), true, []⟩ (100 * second)).2
    ⟨"work log", 100, some 0, 50 * second, true, []⟩
    (some (TrackerSession.reset ⟨some 0, none, 0, true⟩ (100 * second)))
    (by decide) rfl

end TrackMe
